import Mathlib

/-!
Shallow embedding of the agent-marketplace code-validation pipeline
(`agent_marketplace_api.validation.{scanner,quality,runner}`,
`agent_marketplace_api.services.validation_service`,
`agent_marketplace_api.tasks.validation`).

Machine reals (Python floats used for durations and scores) are modelled
as rationals; Python exceptions are modelled with `Except`; subprocess
invocations are modelled by passing the tool outcome (timeout, missing
executable, or its captured/parsed output) as an explicit argument.
-/

/-- A Python exception escaping one of the pipeline functions.  Each
constructor carries `str(e)`, the text of the exception. -/
inductive PyError where
  | scanError (msg : String)
  | qualityError (msg : String)
  | runnerError (msg : String)
  | valueError (msg : String)
deriving DecidableEq

/-- `str(e)` for an exception. -/
def PyError.text : PyError → String
  | .scanError m | .qualityError m | .runnerError m | .valueError m => m

/-! ## scanner.py : data model -/

/-- `scanner.SecurityIssue`. -/
structure SecurityIssue where
  severity : String
  title : String
  description : String
  file_path : Option String := none
  line_number : Option Nat := none
deriving DecidableEq

/-- `scanner.ScanResult`. -/
structure ScanResult where
  passed : Bool
  issues : List SecurityIssue := []
  scanner_version : String := ""
  scan_duration_seconds : ℚ := 0
deriving DecidableEq

/-- `ScanResult.critical_count`. -/
def ScanResult.critical_count (r : ScanResult) : Nat :=
  (r.issues.filter (fun i => i.severity == "critical")).length

/-- `ScanResult.high_count`. -/
def ScanResult.high_count (r : ScanResult) : Nat :=
  (r.issues.filter (fun i => i.severity == "high")).length

/-- `ScanResult.medium_count`. -/
def ScanResult.medium_count (r : ScanResult) : Nat :=
  (r.issues.filter (fun i => i.severity == "medium")).length

/-- `ScanResult.low_count`. -/
def ScanResult.low_count (r : ScanResult) : Nat :=
  (r.issues.filter (fun i => i.severity == "low")).length

/-- `SecurityScanner.__init__`: configuration of the scanner. -/
structure SecurityScanner where
  severity_threshold : String := "medium"
  timeout_seconds : Nat := 300

/-- `SecurityScanner._severity_levels`. -/
def severity_levels : List String := ["low", "medium", "high", "critical"]

/-- The position of a severity string in `severity_levels` (list length if
absent); the ordering index the scanner compares against the threshold. -/
def sevIdx (s : String) : Nat := severity_levels.indexOf s

/-- Python `list.index`: the index of the first occurrence, or a
`ValueError` when the element is absent. -/
def pyListIndex (xs : List String) (x : String) : Except PyError Nat :=
  match xs.indexOf? x with
  | some i => .ok i
  | none => .error (.valueError (x ++ " is not in list"))

/-! ## scanner.py : bandit subprocess -/

/-- One element of the `results` array of bandit's JSON output; absent
keys are `none` (`dict.get` defaults apply in `_run_bandit`). -/
structure BanditFinding where
  issue_severity : Option String := none
  issue_text : Option String := none
  more_info : Option String := none
  filename : Option String := none
  line_number : Option Nat := none
deriving DecidableEq

/-- Outcome of the bandit subprocess call in `_run_bandit`:
`timeout` = `subprocess.TimeoutExpired`, `notInstalled` =
`FileNotFoundError`, `completed none` = empty or non-JSON stdout
(`json.JSONDecodeError` is swallowed), `completed (some fs)` = stdout
parsed to a JSON object whose `results` array holds `fs`. -/
inductive BanditOutcome where
  | timeout
  | notInstalled
  | completed (results : Option (List BanditFinding))
deriving DecidableEq

/-- Python `str.lower` (ASCII letters; the severities involved are ASCII). -/
def pyLower (s : String) : String := ⟨s.data.map Char.toLower⟩

/-- The issues `_run_bandit` collects from parsed bandit output. -/
def banditIssues : BanditOutcome → List SecurityIssue
  | .completed (some fs) =>
    fs.map fun f =>
      { severity := pyLower (f.issue_severity.getD "medium")
        title := f.issue_text.getD "Unknown issue"
        description := f.more_info.getD ""
        file_path := f.filename
        line_number := f.line_number }
  | _ => []

/-- `SecurityScanner._run_bandit`: raises `ScanError` on timeout, returns
no issues when bandit is missing or its output is unparseable. -/
def run_bandit (timeout_seconds : Nat) (o : BanditOutcome) :
    Except PyError (List SecurityIssue) :=
  match o with
  | .timeout => .error (.scanError s!"Security scan timed out after {timeout_seconds}s")
  | o => .ok (banditIssues o)

/-! ## scanner.py : `_check_secrets`

The secret scan works line by line over the text of each `*.py` file
found under the scanned directory (`code_path.rglob("*.py")`).  Each
regex of `secret_patterns` is embedded as an executable matcher over
`List Char`; `re.search` existence is `searchAny` over every start
position.  The backtracking of the original patterns is vacuous at the
points noted below, so the matchers are deterministic. -/

/-- Python `\s` for the ASCII range (`str.strip` / `\s*` whitespace). -/
def pyIsSpace (c : Char) : Bool :=
  c == ' ' || c == '\t' || c == '\n' || c == '\r' || c == '\x0b' || c == '\x0c'

/-- Case-insensitive literal match (`(?i)` flag), returning the rest of
the input after the literal. -/
def matchCI : List Char → List Char → Option (List Char)
  | [], s => some s
  | _, [] => none
  | p :: ps, c :: cs => if p.toLower == c.toLower then matchCI ps cs else none

/-- `[_-]?`: consume one `_` or `-` when present.  (Committed consumption
is equivalent to the regex here because the token that follows always
starts with a letter, so the backtracked branch cannot succeed.) -/
def dropOptSep : List Char → List Char
  | [] => []
  | s@(c :: t) => if c == '_' || c == '-' then t else s

/-- A `"` or `'` (the character class `["\']`). -/
def quoteCh (c : Char) : Bool := c == '"' || c == '\x27'

/-- `\s*[=:]\s*["\'][^"\']{minLen,}["\']` at the head of the input.
`\s*` and `[^"\']{n,}` are greedy, and the character that must follow
each of them is outside the class just consumed, so the match is
deterministic: the quoted run is maximal and must be closed by a quote. -/
def matchAssignedQuoted (minLen : Nat) (s : List Char) : Bool :=
  match s.dropWhile pyIsSpace with
  | [] => false
  | c :: rest =>
    if c == '=' || c == ':' then
      match rest.dropWhile pyIsSpace with
      | [] => false
      | q :: body =>
        if quoteCh q then
          let run := body.takeWhile (fun d => !quoteCh d)
          minLen ≤ run.length && run.length < body.length
        else false
    else false

/-- `(?i)api[_-]?key` at the head of the input (the `apikey` alternative
of the original pattern is its no-separator case). -/
def keyApiAt (s : List Char) : Option (List Char) :=
  (matchCI "api".data s).bind fun r => matchCI "key".data (dropOptSep r)

/-- `(?i)secret[_-]?key` at the head of the input. -/
def keySecretAt (s : List Char) : Option (List Char) :=
  (matchCI "secret".data s).bind fun r => matchCI "key".data (dropOptSep r)

/-- `(?i)(password|passwd|pwd)` at the head of the input. -/
def keyPasswordAt (s : List Char) : Option (List Char) :=
  match matchCI "password".data s with
  | some r => some r
  | none =>
    match matchCI "passwd".data s with
    | some r => some r
    | none => matchCI "pwd".data s

/-- Matcher for pattern 1: `(?i)(api[_-]?key|apikey)\s*[=:]\s*["\'][^"\']{10,}["\']`. -/
def patApiKey (s : List Char) : Bool :=
  (keyApiAt s).elim false (matchAssignedQuoted 10)

/-- Matcher for pattern 2: `(?i)(secret[_-]?key|secretkey)\s*[=:]\s*["\'][^"\']{10,}["\']`. -/
def patSecretKey (s : List Char) : Bool :=
  (keySecretAt s).elim false (matchAssignedQuoted 10)

/-- Matcher for pattern 3: `(?i)(password|passwd|pwd)\s*[=:]\s*["\'][^"\']{4,}["\']`. -/
def patPassword (s : List Char) : Bool :=
  (keyPasswordAt s).elim false (matchAssignedQuoted 4)

/-- Matcher for pattern 4: `(?i)(token)\s*[=:]\s*["\'][^"\']{10,}["\']`. -/
def patToken (s : List Char) : Bool :=
  (matchCI "token".data s).elim false (matchAssignedQuoted 10)

/-- Matcher for pattern 5: `(?i)(aws[_-]?access[_-]?key)`. -/
def patAwsAccessKey (s : List Char) : Bool :=
  ((matchCI "aws".data s).bind fun r =>
    (matchCI "access".data (dropOptSep r)).bind fun r2 =>
      matchCI "key".data (dropOptSep r2)).isSome

/-- Matcher for pattern 6: `(?i)(private[_-]?key)`. -/
def patPrivateKey (s : List Char) : Bool :=
  ((matchCI "private".data s).bind fun r =>
    matchCI "key".data (dropOptSep r)).isSome

/-- `re.search` as existence of a match at some start position. -/
def searchAny (p : List Char → Bool) : List Char → Bool
  | [] => p []
  | s@(_ :: t) => p s || searchAny p t

/-- One entry of `_check_secrets`'s `secret_patterns` table: the regex
source text (used verbatim in the finding description), the finding
title, and the embedded matcher. -/
structure SecretPattern where
  pattern : String
  title : String
  matchesAt : List Char → Bool

/-- `_check_secrets`'s `secret_patterns`, in source order. -/
def secret_patterns : List SecretPattern :=
  [ { pattern := "(?i)(api[_-]?key|apikey)\\s*[=:]\\s*[\"\\\x27][^\"\\\x27]\x7b10,\x7d[\"\\\x27]"
      title := "Potential API key", matchesAt := patApiKey }
  , { pattern := "(?i)(secret[_-]?key|secretkey)\\s*[=:]\\s*[\"\\\x27][^\"\\\x27]\x7b10,\x7d[\"\\\x27]"
      title := "Potential secret key", matchesAt := patSecretKey }
  , { pattern := "(?i)(password|passwd|pwd)\\s*[=:]\\s*[\"\\\x27][^\"\\\x27]\x7b4,\x7d[\"\\\x27]"
      title := "Potential hardcoded password", matchesAt := patPassword }
  , { pattern := "(?i)(token)\\s*[=:]\\s*[\"\\\x27][^\"\\\x27]\x7b10,\x7d[\"\\\x27]"
      title := "Potential hardcoded token", matchesAt := patToken }
  , { pattern := "(?i)(aws[_-]?access[_-]?key)"
      title := "Potential AWS access key", matchesAt := patAwsAccessKey }
  , { pattern := "(?i)(private[_-]?key)"
      title := "Potential private key reference", matchesAt := patPrivateKey } ]

/-- The first pattern of `secret_patterns` matching the line (the inner
`for … break` of `_check_secrets`). -/
def firstSecretPattern (line : List Char) : Option SecretPattern :=
  secret_patterns.find? fun p => searchAny p.matchesAt line

/-- Python `str.strip` (ASCII whitespace). -/
def pyStrip (s : List Char) : List Char :=
  ((s.dropWhile pyIsSpace).reverse.dropWhile pyIsSpace).reverse

/-- Python `str.split("\n")`. -/
def splitOnNl : List Char → List (List Char)
  | [] => [[]]
  | c :: t =>
    if c == '\n' then [] :: splitOnNl t
    else
      match splitOnNl t with
      | h :: r => (c :: h) :: r
      | [] => [[c]]

/-- The findings `_check_secrets` emits for one line of one file:
nothing for a comment line, else one `high` finding for the first
matching pattern. -/
def secretIssuesOfLine (path : String) (line_num : Nat) (line : List Char) :
    List SecurityIssue :=
  match pyStrip line with
  | '#' :: _ => []
  | _ =>
    match firstSecretPattern line with
    | some p =>
      [{ severity := "high", title := p.title
         description := "Found pattern matching potential secret: " ++ p.pattern
         file_path := some path, line_number := some line_num }]
    | none => []

/-- A file under the scanned directory: its path and its text, `none`
when reading it raises `OSError`/`UnicodeDecodeError`. -/
structure SrcFile where
  path : String
  text : Option String
deriving DecidableEq

/-- The findings `_check_secrets` emits for one file (unreadable files
are skipped; line numbering starts at 1). -/
def checkSecretsFile (f : SrcFile) : List SecurityIssue :=
  match f.text with
  | none => []
  | some content =>
    ((splitOnNl content.data).enum).bind fun il =>
      secretIssuesOfLine f.path (il.1 + 1) il.2

/-- `SecurityScanner._check_secrets` over a scanned directory: only the
files matched by `code_path.rglob("*.py")` are examined. -/
def check_secrets (files : List SrcFile) : List SecurityIssue :=
  (files.filter fun f => ".py".data.isSuffixOf f.path.data).bind checkSecretsFile

/-! ## scanner.py : `scan` -/

/-- The short-circuiting `any(... levels.index(i.severity) >= threshold_idx ...)`
of `scan`: `list.index` raises `ValueError` on a severity outside
`severity_levels`, but only when the generator reaches that finding. -/
def anyAtOrAbove (threshold_idx : Nat) : List SecurityIssue → Except PyError Bool
  | [] => .ok false
  | i :: rest =>
    match pyListIndex severity_levels i.severity with
    | .error e => .error e
    | .ok idx => if threshold_idx ≤ idx then .ok true else anyAtOrAbove threshold_idx rest

/-- `SecurityScanner.scan`.  The scanned directory is described by
`path_exists`, the bandit subprocess outcome and the directory's files;
`scan_duration` stands for the measured wall-clock time. -/
def SecurityScanner.scan (sc : SecurityScanner) (code_path : String)
    (path_exists : Bool) (bandit : BanditOutcome) (files : List SrcFile)
    (scan_duration : ℚ) : Except PyError ScanResult :=
  if !path_exists then .error (.scanError s!"Path does not exist: {code_path}")
  else
    match run_bandit sc.timeout_seconds bandit with
    | .error e => .error e
    | .ok bandit_issues =>
      let issues := bandit_issues ++ check_secrets files
      match pyListIndex severity_levels sc.severity_threshold with
      | .error e => .error e
      | .ok threshold_idx =>
        match anyAtOrAbove threshold_idx issues with
        | .error e => .error e
        | .ok any_ge =>
          .ok { passed := !any_ge, issues := issues, scanner_version := "1.0.0"
                scan_duration_seconds := scan_duration }

/-! ## quality.py -/

/-- `quality.QualityIssue`. -/
structure QualityIssue where
  category : String
  code : String
  message : String
  file_path : Option String := none
  line_number : Option Nat := none
  column : Option Nat := none
deriving DecidableEq

/-- `quality.QualityResult`. -/
structure QualityResult where
  passed : Bool
  issues : List QualityIssue := []
  lint_score : ℚ := 0
  type_check_passed : Bool := true
  check_duration_seconds : ℚ := 0
deriving DecidableEq

/-- `QualityChecker.__init__`: configuration of the quality checker.
`max_lint_issues` is a Python int, hence `Int`. -/
structure QualityChecker where
  max_lint_issues : Int := 10
  require_type_hints : Bool := false
  timeout_seconds : Nat := 300

/-- One element of ruff's JSON array output; absent keys are `none`. -/
structure RuffFinding where
  code : Option String := none
  message : Option String := none
  filename : Option String := none
  row : Option Nat := none
  column : Option Nat := none
deriving DecidableEq

/-- Outcome of the ruff subprocess call in `_run_ruff`: timeout, missing
executable, or captured stdout (`none` = empty or non-JSON, swallowed). -/
inductive RuffOutcome where
  | timeout
  | notInstalled
  | completed (findings : Option (List RuffFinding))
deriving DecidableEq

/-- The issues `_run_ruff` collects from parsed ruff output; every one is
category `lint`. -/
def ruffIssues : RuffOutcome → List QualityIssue
  | .completed (some fs) =>
    fs.map fun f =>
      { category := "lint"
        code := f.code.getD "unknown"
        message := f.message.getD "Unknown issue"
        file_path := f.filename
        line_number := f.row
        column := f.column }
  | _ => []

/-- `QualityChecker._run_ruff`: raises `QualityError` on timeout, returns
no issues when ruff is missing or its output is unparseable. -/
def run_ruff (timeout_seconds : Nat) (o : RuffOutcome) :
    Except PyError (List QualityIssue) :=
  match o with
  | .timeout => .error (.qualityError s!"Lint check timed out after {timeout_seconds}s")
  | o => .ok (ruffIssues o)

/-- Outcome of the mypy subprocess call in `_run_mypy`: timeout, or the
`(issues, passed)` pair the method computes from mypy's stdout lines and
exit code (that plain-text parsing is abstracted as the pair itself;
`notInstalled` is the `FileNotFoundError` path, which yields
`([], true)`). -/
inductive MypyOutcome where
  | timeout
  | result (issues : List QualityIssue) (passed : Bool)
deriving DecidableEq

/-- `QualityChecker._run_mypy`: raises `QualityError` on timeout, else
returns the parsed `(issues, passed)` pair. -/
def run_mypy (timeout_seconds : Nat) (o : MypyOutcome) :
    Except PyError (List QualityIssue × Bool) :=
  match o with
  | .timeout => .error (.qualityError s!"Type check timed out after {timeout_seconds}s")
  | .result issues passed => .ok (issues, passed)

/-- The lint-score formula of `QualityChecker.check`:
`max(0.0, 100.0 - lint_issue_count * 5.0)`. -/
def lintScoreOf (lint_issue_count : Nat) : ℚ :=
  max 0 (100 - (lint_issue_count : ℚ) * 5)

/-- `QualityChecker.check`.  The checked directory is described by
`path_exists` and the two tool outcomes; `check_duration` stands for the
measured wall-clock time. -/
def QualityChecker.check (qc : QualityChecker) (code_path : String)
    (path_exists : Bool) (ruff : RuffOutcome) (mypy : MypyOutcome)
    (check_duration : ℚ) : Except PyError QualityResult :=
  if !path_exists then .error (.qualityError s!"Path does not exist: {code_path}")
  else
    match run_ruff qc.timeout_seconds ruff with
    | .error e => .error e
    | .ok lint_issues =>
      match (if qc.require_type_hints then
               (run_mypy qc.timeout_seconds mypy).map some
             else .ok none) with
      | .error e => .error e
      | .ok mypyRes =>
        let issues := lint_issues ++ (mypyRes.map Prod.fst).getD []
        let type_check_passed := (mypyRes.map Prod.snd).getD true
        let lint_issue_count := (issues.filter fun i => i.category == "lint").length
        let lint_score := lintScoreOf lint_issue_count
        let passed₀ := decide ((lint_issue_count : Int) ≤ qc.max_lint_issues)
        let passed := if qc.require_type_hints then passed₀ && type_check_passed else passed₀
        .ok { passed := passed, issues := issues, lint_score := lint_score
              type_check_passed := type_check_passed
              check_duration_seconds := check_duration }

/-! ## runner.py : data model -/

/-- `runner.TestCase`. -/
structure TestCase where
  name : String
  status : String
  duration_seconds : ℚ := 0
  error_message : Option String := none
  file_path : Option String := none
deriving DecidableEq

/-- `runner.TestResult`. -/
structure TestResult where
  passed : Bool
  total_tests : Nat := 0
  passed_tests : Nat := 0
  failed_tests : Nat := 0
  skipped_tests : Nat := 0
  error_tests : Nat := 0
  test_cases : List TestCase := []
  coverage_percent : Option ℚ := none
  run_duration_seconds : ℚ := 0
  output : String := ""
deriving DecidableEq

/-- `TestResult.pass_rate`. -/
def TestResult.pass_rate (r : TestResult) : ℚ :=
  if r.total_tests = 0 then 0
  else ((r.passed_tests : ℚ) / (r.total_tests : ℚ)) * 100

/-! ## runner.py : `_parse_pytest_output`

The three regexes of `_parse_pytest_output` are embedded as executable
searches over `List Char`.  `.` never matches a newline (no `DOTALL`);
`\s` does match a newline; each `X+` run below is followed by a literal
outside the class `X`, so greedy matching with backtracking degenerates
to taking the maximal run. -/

/-- ASCII `\d`. -/
def isDigitCh (c : Char) : Bool := '0' ≤ c && c ≤ '9'

/-- Python `int` on a captured `\d+` group. -/
def digitsToNat (ds : List Char) : Nat :=
  ds.foldl (fun acc c => acc * 10 + (c.toNat - 48)) 0

/-- `\d+\s+kw` at the head of the input: a nonempty maximal digit run,
then nonempty whitespace, then the literal keyword.  Returns the digit
group and the input after the keyword. -/
def matchNumKw (kw : List Char) (s : List Char) : Option (List Char × List Char) :=
  let ds := s.takeWhile isDigitCh
  if ds.isEmpty then none
  else
    let r := s.dropWhile isDigitCh
    let sp := r.takeWhile pyIsSpace
    if sp.isEmpty then none
    else
      let r2 := r.dropWhile pyIsSpace
      if kw.isPrefixOf r2 then some (ds, r2.drop kw.length) else none

/-- `.*?(\d+)\s+kw` from the current position: the lazy `.*?` stops at
the first position where `\d+\s+kw` matches, and cannot skip past a
newline. -/
def lazyNumKw (kw : List Char) : List Char → Option (List Char × List Char)
  | [] => none
  | s@(c :: t) =>
    match matchNumKw kw s with
    | some r => some r
    | none => if c == '\n' then none else lazyNumKw kw t

/-- `(?:.*?(\d+)\s+kw)?`: a greedy optional group; when no position
works the group captures nothing and consumes nothing. -/
def optNumKw (kw : List Char) (s : List Char) : Option (List Char) × List Char :=
  match lazyNumKw kw s with
  | some (ds, rest) => (some ds, rest)
  | none => (none, s)

/-- The captured groups of the summary regex
`(\d+)\s+passed(?:.*?(\d+)\s+failed)?(?:.*?(\d+)\s+skipped)?(?:.*?(\d+)\s+error)?`. -/
structure SummaryGroups where
  passedDigits : List Char
  failedDigits : Option (List Char)
  skippedDigits : Option (List Char)
  errorDigits : Option (List Char)
deriving DecidableEq

/-- `re.search` of the summary regex: the match starting leftmost, each
optional group then matching greedily with a lazy gap. -/
def summarySearch : List Char → Option SummaryGroups
  | [] => none
  | s@(_ :: t) =>
    match matchNumKw "passed".data s with
    | some (ds, rest) =>
      let (g2, rest2) := optNumKw "failed".data rest
      let (g3, rest3) := optNumKw "skipped".data rest2
      let (g4, _) := optNumKw "error".data rest3
      some ⟨ds, g2, g3, g4⟩
    | none => summarySearch t

/-- Does a maximal nonspace token contain `::` preceded and followed by
at least one character?  This is exactly when the token matches
`\S+::\S+` (the groups are all-`\S`, and the trailing `\s+` of the case
regex forces the second `\S+` to extend to the end of the token). -/
def hasProperColons (tok : List Char) : Bool :=
  match tok with
  | [] => false
  | _ :: rest => colonsThen rest
where
  /-- `::` with at least one character after it occurs somewhere in the list. -/
  colonsThen : List Char → Bool
    | ':' :: ':' :: _ :: _ => true
    | _ :: t => colonsThen t
    | [] => false

/-- The four case statuses of the per-case regex, in alternation order. -/
def caseStatusWords : List (List Char) :=
  ["PASSED".data, "FAILED".data, "SKIPPED".data, "ERROR".data]

/-- `(\S+::\S+)\s+(PASSED|FAILED|SKIPPED|ERROR)` at the head of the
input: the maximal nonspace token, containing a proper `::`, then
nonempty whitespace, then one of the four status words.  Returns the
captured `(name, status)` groups and the input after the status word. -/
def matchCaseLine (s : List Char) : Option ((List Char × List Char) × List Char) :=
  let tok := s.takeWhile (fun c => !pyIsSpace c)
  if tok.isEmpty then none
  else if hasProperColons tok then
    let r := s.dropWhile (fun c => !pyIsSpace c)
    let sp := r.takeWhile pyIsSpace
    if sp.isEmpty then none
    else
      let r2 := r.dropWhile pyIsSpace
      match caseStatusWords.find? (fun w => w.isPrefixOf r2) with
      | some w => some ((tok, w), r2.drop w.length)
      | none => none
  else none

/-- `finditer` of the case regex: non-overlapping matches, scanning left
to right.  Structured with explicit fuel for termination; every step
consumes at least one character (a successful match consumes its whole
token, whitespace and status word), so fuel `s.length` in `caseMatches`
is never exhausted before the input is. -/
def caseMatchesAux : Nat → List Char → List (List Char × List Char)
  | 0, _ => []
  | _ + 1, [] => []
  | fuel + 1, s@(_ :: t) =>
    match matchCaseLine s with
    | some (m, rest) => m :: caseMatchesAux fuel rest
    | none => caseMatchesAux fuel t

/-- All matches of the case regex over the output, in order. -/
def caseMatches (s : List Char) : List (List Char × List Char) :=
  caseMatchesAux s.length s

/-- A case-sensitive literal at the head of the input, returning the
rest after it. -/
def matchLit (kw s : List Char) : Option (List Char) :=
  if kw.isPrefixOf s then some (s.drop kw.length) else none

/-- `\s+(\d+)` at the head of the input: nonempty whitespace then a
nonempty maximal digit run; returns the digit group and the rest. -/
def spacesThenDigits (s : List Char) : Option (List Char × List Char) :=
  let sp := s.takeWhile pyIsSpace
  if sp.isEmpty then none
  else
    let r := s.dropWhile pyIsSpace
    let ds := r.takeWhile isDigitCh
    if ds.isEmpty then none else some (ds, r.dropWhile isDigitCh)

/-- The coverage regex `TOTAL\s+\d+\s+\d+\s+(\d+)%` at the head of the
input; returns the captured digit group. -/
def coverageAt (s : List Char) : Option (List Char) :=
  (matchLit "TOTAL".data s).bind fun r =>
    (spacesThenDigits r).bind fun d1 =>
      (spacesThenDigits d1.2).bind fun d2 =>
        (spacesThenDigits d2.2).bind fun d3 =>
          match d3.2 with
          | '%' :: _ => some d3.1
          | _ => none

/-- `re.search` of the coverage regex: leftmost match. -/
def coverageSearch : List Char → Option (List Char)
  | [] => none
  | s@(_ :: t) =>
    match coverageAt s with
    | some ds => some ds
    | none => coverageSearch t

/-- `TestRunner._parse_pytest_output`. -/
def parse_pytest_output (stdout stderr : String) (return_code : Int) : TestResult :=
  let output : List Char := stdout.data ++ "\n".data ++ stderr.data
  let ms := caseMatches output
  let test_cases : List TestCase := ms.map fun m => { name := ⟨m.1⟩, status := pyLower ⟨m.2⟩ }
  let casePassed := (test_cases.filter fun c => c.status == "passed").length
  let caseFailed := (test_cases.filter fun c => c.status == "failed").length
  let caseSkipped := (test_cases.filter fun c => c.status == "skipped").length
  let caseError := (test_cases.filter fun c => c.status == "error").length
  let summary := summarySearch output
  let passed_tests := match summary with
    | some g => digitsToNat g.passedDigits
    | none => casePassed
  let failed_tests := match summary with
    | some g => (g.failedDigits.map digitsToNat).getD caseFailed
    | none => caseFailed
  let skipped_tests := match summary with
    | some g => (g.skippedDigits.map digitsToNat).getD caseSkipped
    | none => caseSkipped
  let error_tests := match summary with
    | some g => (g.errorDigits.map digitsToNat).getD caseError
    | none => caseError
  let coverage_percent : Option ℚ := (coverageSearch output).map fun ds => (digitsToNat ds : ℚ)
  let total_tests := passed_tests + failed_tests + skipped_tests + error_tests
  let passed := return_code == 0 && failed_tests == 0 && error_tests == 0
  { passed := passed, total_tests := total_tests, passed_tests := passed_tests
    failed_tests := failed_tests, skipped_tests := skipped_tests
    error_tests := error_tests, test_cases := test_cases
    coverage_percent := coverage_percent, run_duration_seconds := 0
    output := ⟨output⟩ }

/-! ## services/validation_service.py -/

/-- `ValidationStatus`. -/
inductive ValidationStatus where
  | pending
  | running
  | passed
  | failed
  | error
deriving DecidableEq

/-- `ValidationStatus.value` (the string payload of the enum). -/
def ValidationStatus.value : ValidationStatus → String
  | .pending => "pending"
  | .running => "running"
  | .passed => "passed"
  | .failed => "failed"
  | .error => "error"

/-- `ValidationResult`. -/
structure ValidationResult where
  status : ValidationStatus
  security_result : Option ScanResult := none
  quality_result : Option QualityResult := none
  test_result : Option TestResult := none
  error_message : Option String := none
  total_duration_seconds : ℚ := 0
deriving DecidableEq

/-- `ValidationResult.passed` (a property, not a stored field):
`status == PASSED`. -/
def ValidationResult.passed (r : ValidationResult) : Bool :=
  r.status == ValidationStatus.passed

/-- The value of the `details` dict of a `ValidationResult`: one entry
per check, `False` when that check has no sub-result. -/
structure CheckDetails where
  security : Bool
  quality : Bool
  tests : Bool
deriving DecidableEq

/-- `ValidationResult.details`. -/
def ValidationResult.details (r : ValidationResult) : CheckDetails :=
  { security := (r.security_result.map ScanResult.passed).getD false
    quality := (r.quality_result.map QualityResult.passed).getD false
    tests := (r.test_result.map TestResult.passed).getD false }

/-- The `security` sub-dict of `ValidationResult.to_dict` (present only
when there is a security result, so `passed` is never the inner `None`). -/
structure SecuritySummary where
  passed : Bool
  issues_count : Nat
  critical_count : Nat
  high_count : Nat
deriving DecidableEq

/-- The `quality` sub-dict of `ValidationResult.to_dict`. -/
structure QualitySummary where
  passed : Bool
  lint_score : ℚ
  issues_count : Nat
deriving DecidableEq

/-- The `tests` sub-dict of `ValidationResult.to_dict`. -/
structure TestsSummary where
  passed : Bool
  total : Nat
  passed_count : Nat
  failed_count : Nat
  coverage : Option ℚ
deriving DecidableEq

/-- The dictionary produced by `ValidationResult.to_dict`. -/
structure SerializedValidation where
  status : String
  passed : Bool
  details : CheckDetails
  error_message : Option String
  total_duration_seconds : ℚ
  security : Option SecuritySummary
  quality : Option QualitySummary
  tests : Option TestsSummary
deriving DecidableEq

/-- `ValidationResult.to_dict`. -/
def ValidationResult.to_dict (r : ValidationResult) : SerializedValidation :=
  { status := r.status.value
    passed := r.passed
    details := r.details
    error_message := r.error_message
    total_duration_seconds := r.total_duration_seconds
    security := r.security_result.map fun s =>
      { passed := s.passed, issues_count := s.issues.length
        critical_count := s.critical_count, high_count := s.high_count }
    quality := r.quality_result.map fun q =>
      { passed := q.passed, lint_score := q.lint_score
        issues_count := q.issues.length }
    tests := r.test_result.map fun t =>
      { passed := t.passed, total := t.total_tests
        passed_count := t.passed_tests, failed_count := t.failed_tests
        coverage := t.coverage_percent } }

/-- `ValidationConfig`. -/
structure ValidationConfig where
  security_severity_threshold : String := "medium"
  security_timeout : Nat := 300
  max_lint_issues : Int := 10
  require_type_hints : Bool := false
  quality_timeout : Nat := 300
  require_tests : Bool := false
  min_coverage : Option ℚ := none
  test_timeout : Nat := 600
  skip_security : Bool := false
  skip_quality : Bool := false
  skip_tests : Bool := false
deriving DecidableEq

/-- `ValidationService.validate`.  Each enabled check's outcome (its
result, or the exception it raises) is passed in as an `Except`;
`total_duration` stands for the measured wall-clock time.  The checks
run sequentially in source order, so the first exception aborts the
remaining checks while keeping the sub-results already computed. -/
def validate (config : ValidationConfig)
    (security : Except PyError ScanResult)
    (quality : Except PyError QualityResult)
    (test : Except PyError TestResult)
    (total_duration : ℚ) : ValidationResult :=
  match (if config.skip_security then .ok none else security.map some :
         Except PyError (Option ScanResult)) with
  | .error e =>
    { status := .error, error_message := some e.text
      total_duration_seconds := total_duration }
  | .ok security_result =>
    match (if config.skip_quality then .ok none else quality.map some :
           Except PyError (Option QualityResult)) with
    | .error e =>
      { status := .error, security_result := security_result
        error_message := some e.text, total_duration_seconds := total_duration }
    | .ok quality_result =>
      match (if config.skip_tests then .ok none else test.map some :
             Except PyError (Option TestResult)) with
      | .error e =>
        { status := .error, security_result := security_result
          quality_result := quality_result, error_message := some e.text
          total_duration_seconds := total_duration }
      | .ok test_result =>
        let all_passed := security_result.all ScanResult.passed
          && quality_result.all QualityResult.passed
          && test_result.all TestResult.passed
        { status := if all_passed then .passed else .failed
          security_result := security_result, quality_result := quality_result
          test_result := test_result, error_message := none
          total_duration_seconds := total_duration }

/-! ## tasks/validation.py -/

/-- The fields of the `AgentVersion` record that
`tasks/validation.py` reads or writes. -/
structure AgentVersion where
  tested : Bool
  security_scan_passed : Bool
  quality_score : Option ℚ := none
deriving DecidableEq

/-- `_update_validation_status`: the record update performed for a
status string.  Its `error_message` parameter is accepted but never
used (`noqa: ARG001` in the source), so no field of the record receives
the message. -/
def update_validation_status (status : String) (error_message : Option String)
    (v : AgentVersion) : AgentVersion :=
  match error_message with
  | _ =>
    if status == "running" then { v with tested := false, security_scan_passed := false }
    else if status == "failed" then { v with tested := true, security_scan_passed := false }
    else v

/-- The exception classes involved in `validate_agent_task`'s
`try/except`: celery's `MaxRetriesExceededError`, celery's `Retry`
control-flow signal raised by `self.retry` when attempts remain, and
any other exception text. -/
inductive TaskError where
  | maxRetriesExceeded
  | retrySignal
  | other (msg : String)
deriving DecidableEq

/-- How one invocation of `validate_agent_task` ends. -/
inductive TaskOutcome where
  | completed (result : SerializedValidation)
  | retryScheduled
  | failedWith (e : TaskError)
deriving DecidableEq

/-- `validate_agent_task`: one invocation, given the outcome of
`_run_validation` and whether the retry budget is already exhausted.
Returns how the invocation ends together with the `AgentVersion` record
as this function leaves it.  Python's exception semantics are decisive
here: an exception raised inside the `except Exception` handler (the
`MaxRetriesExceededError` that `self.retry` raises once retries are
exhausted) is NOT caught by the sibling `except MaxRetriesExceededError`
clause of the same `try`, so on that path the record is left untouched. -/
def validate_agent_task (run_outcome : Except TaskError SerializedValidation)
    (retries_exhausted : Bool) (v : AgentVersion) :
    TaskOutcome × AgentVersion :=
  match run_outcome with
  | .ok r => (.completed r, v)
  | .error .maxRetriesExceeded =>
    (.failedWith .maxRetriesExceeded,
     update_validation_status "failed" (some "Max retries exceeded") v)
  | .error _ =>
    if retries_exhausted then (.failedWith .maxRetriesExceeded, v)
    else (.retryScheduled, v)

deriving instance DecidableEq for Except

/-! ## Theorems -/

/-- On a severity that is one of the four levels, `list.index` returns
its position and does not raise. -/
theorem pyListIndex_severity (x : String) (h : x ∈ severity_levels) :
    pyListIndex severity_levels x = .ok (sevIdx x) := by
  fin_cases h <;> rfl

/-- When bandit did not time out, `_run_bandit` returns its collected
issues. -/
theorem run_bandit_of_ne_timeout (t : Nat) (o : BanditOutcome) (h : o ≠ .timeout) :
    run_bandit t o = .ok (banditIssues o) := by
  cases o with
  | timeout => exact absurd rfl h
  | notInstalled => rfl
  | completed r => rfl

/-- When every finding's severity is one of the four levels, the
scanner's short-circuiting `any` computes the boolean it denotes. -/
theorem anyAtOrAbove_eq (t : Nat) (issues : List SecurityIssue)
    (h : ∀ i ∈ issues, i.severity ∈ severity_levels) :
    anyAtOrAbove t issues = .ok (issues.any fun i => t ≤ sevIdx i.severity) := by
  induction issues with
  | nil => rfl
  | cons i rest ih =>
    rw [anyAtOrAbove, pyListIndex_severity i.severity (h i (by simp))]
    by_cases ht : t ≤ sevIdx i.severity
    · simp [ht]
    · simp [ht, ih fun j hj => h j (by simp [hj])]

/-- On an existing path, with no tool timeout and every collected
severity among the four levels, `scan` returns the result computed from
the collected issues. -/
theorem scan_eq_ok_of_valid (sc : SecurityScanner) (code_path : String)
    (bandit : BanditOutcome) (files : List SrcFile) (d : ℚ)
    (ht : sc.severity_threshold ∈ severity_levels)
    (hb : bandit ≠ .timeout)
    (hsev : ∀ i ∈ banditIssues bandit ++ check_secrets files,
      i.severity ∈ severity_levels) :
    sc.scan code_path true bandit files d =
      .ok { passed := !((banditIssues bandit ++ check_secrets files).any
              fun i => decide (sevIdx sc.severity_threshold ≤ sevIdx i.severity))
            issues := banditIssues bandit ++ check_secrets files
            scanner_version := "1.0.0", scan_duration_seconds := d } := by
  simp only [SecurityScanner.scan, Bool.not_true, Bool.false_eq_true, if_false,
    run_bandit_of_ne_timeout sc.timeout_seconds bandit hb,
    pyListIndex_severity sc.severity_threshold ht, anyAtOrAbove_eq _ _ hsev]

/-- C2: for every scanner whose `severity_threshold` is one of
low/medium/high/critical and every scan that returns (the path exists,
the tool did not time out, every collected severity is a level),
`ScanResult.passed` is true iff no finding's severity index is at or
above the threshold's index under the order low < medium < high <
critical encoded by `sevIdx`. -/
theorem scan_passed_iff_below_threshold (sc : SecurityScanner)
    (code_path : String) (bandit : BanditOutcome) (files : List SrcFile) (d : ℚ)
    (ht : sc.severity_threshold ∈ severity_levels)
    (hb : bandit ≠ .timeout)
    (hsev : ∀ i ∈ banditIssues bandit ++ check_secrets files,
      i.severity ∈ severity_levels) :
    ∃ r, sc.scan code_path true bandit files d = .ok r ∧
      r.issues = banditIssues bandit ++ check_secrets files ∧
      (r.passed = true ↔
        ∀ i ∈ r.issues, sevIdx i.severity < sevIdx sc.severity_threshold) ∧
      (r.passed = false ↔
        ∃ i ∈ r.issues, sevIdx sc.severity_threshold ≤ sevIdx i.severity) ∧
      sevIdx "low" = 0 ∧ sevIdx "medium" = 1 ∧ sevIdx "high" = 2 ∧
      sevIdx "critical" = 3 := by
  refine ⟨_, scan_eq_ok_of_valid sc code_path bandit files d ht hb hsev, rfl,
    ?_, ?_, by decide, by decide, by decide, by decide⟩
  · simp only [Bool.not_eq_eq_eq_not, Bool.not_true, List.any_eq_false,
      decide_eq_true_eq, not_le]
  · simp only [Bool.not_eq_eq_eq_not, Bool.not_false, List.any_eq_true,
      decide_eq_true_eq]

/-- Witness for `scan_passed_iff_below_threshold` at a concrete scanner,
bandit outcome and file list. -/
theorem scan_passed_iff_below_threshold_witness :
    ∃ r, SecurityScanner.scan {} "agent" true .notInstalled [] 0 = .ok r ∧
      r.issues = banditIssues .notInstalled ++ check_secrets [] ∧
      (r.passed = true ↔
        ∀ i ∈ r.issues, sevIdx i.severity < sevIdx (SecurityScanner.mk "medium" 300).severity_threshold) ∧
      (r.passed = false ↔
        ∃ i ∈ r.issues, sevIdx (SecurityScanner.mk "medium" 300).severity_threshold ≤ sevIdx i.severity) ∧
      sevIdx "low" = 0 ∧ sevIdx "medium" = 1 ∧ sevIdx "high" = 2 ∧
      sevIdx "critical" = 3 :=
  scan_passed_iff_below_threshold {} "agent" .notInstalled [] 0
    (by decide) (by decide) (by decide)

/-- C1: when no enabled check raises, `validate` returns `PASSED` iff
every check that ran (was not skipped) reported `passed = true`, and
`FAILED` otherwise; with all three checks skipped it returns `PASSED`
with all three sub-results `none` and a nonnegative total duration. -/
theorem validate_passed_iff_all_ran_passed (config : ValidationConfig)
    (sr : ScanResult) (qr : QualityResult) (tr : TestResult) (d : ℚ)
    (hd : 0 ≤ d) :
    (validate config (.ok sr) (.ok qr) (.ok tr) d).status =
      (if (config.skip_security || sr.passed)
          && (config.skip_quality || qr.passed)
          && (config.skip_tests || tr.passed)
        then ValidationStatus.passed else ValidationStatus.failed) ∧
    (config.skip_security = true → config.skip_quality = true →
      config.skip_tests = true →
      validate config (.ok sr) (.ok qr) (.ok tr) d =
        { status := .passed, security_result := none, quality_result := none
          test_result := none, error_message := none
          total_duration_seconds := d } ∧
      0 ≤ (validate config (.ok sr) (.ok qr) (.ok tr) d).total_duration_seconds) := by
  constructor
  · cases hs : config.skip_security <;> cases hq : config.skip_quality <;>
      cases htk : config.skip_tests <;>
      simp [validate, hs, hq, htk, Except.map, Option.all]
  · intro hs hq htk
    simp [validate, hs, hq, htk, Option.all, hd]

/-- Witness for `validate_passed_iff_all_ran_passed` with all checks
skipped and duration 0. -/
theorem validate_passed_iff_all_ran_passed_witness :
    (validate { skip_security := true, skip_quality := true, skip_tests := true }
        (.ok { passed := false }) (.ok { passed := false })
        (.ok { passed := false }) 0).status =
      (if (true || false) && (true || false) && (true || false)
        then ValidationStatus.passed else ValidationStatus.failed) ∧
    (true = true → true = true → true = true →
      validate { skip_security := true, skip_quality := true, skip_tests := true }
          (.ok { passed := false }) (.ok { passed := false })
          (.ok { passed := false }) 0 =
        { status := .passed, security_result := none, quality_result := none
          test_result := none, error_message := none
          total_duration_seconds := 0 } ∧
      0 ≤ (validate { skip_security := true, skip_quality := true, skip_tests := true }
          (.ok { passed := false }) (.ok { passed := false })
          (.ok { passed := false }) 0).total_duration_seconds) :=
  validate_passed_iff_all_ran_passed
    { skip_security := true, skip_quality := true, skip_tests := true }
    { passed := false } { passed := false } { passed := false } 0 (by decide)

/-- C3: if an enabled check raises, `validate` returns `status = ERROR`
with `error_message` the exception's text, and every sub-result computed
before the exception is still attached (later checks did not run, so
their sub-results are `none`). -/
theorem validate_error_preserves_partial_results (config : ValidationConfig)
    (sr : ScanResult) (qr : QualityResult) (e : PyError)
    (quality : Except PyError QualityResult) (test : Except PyError TestResult)
    (d : ℚ) :
    (config.skip_security = false →
      validate config (.error e) quality test d =
        { status := .error, security_result := none, quality_result := none
          test_result := none, error_message := some e.text
          total_duration_seconds := d }) ∧
    (config.skip_quality = false →
      validate config (.ok sr) (.error e) test d =
        { status := .error
          security_result := if config.skip_security then none else some sr
          quality_result := none, test_result := none
          error_message := some e.text, total_duration_seconds := d }) ∧
    (config.skip_tests = false →
      validate config (.ok sr) (.ok qr) (.error e) d =
        { status := .error
          security_result := if config.skip_security then none else some sr
          quality_result := if config.skip_quality then none else some qr
          test_result := none, error_message := some e.text
          total_duration_seconds := d }) := by
  refine ⟨fun hs => ?_, fun hq => ?_, fun htk => ?_⟩
  · simp [validate, hs, Except.map]
  · cases hs : config.skip_security <;> simp [validate, hs, hq, Except.map]
  · cases hs : config.skip_security <;> cases hq : config.skip_quality <;>
      simp [validate, hs, hq, htk, Except.map]

/-- Witness for `validate_error_preserves_partial_results` on the
default configuration, a completed security scan and a quality check
that raises. -/
theorem validate_error_preserves_partial_results_witness :
    (({} : ValidationConfig).skip_security = false →
      validate {} (.error (.qualityError "boom"))
          (.ok ({ passed := true } : QualityResult))
          (.ok ({ passed := true } : TestResult)) 0 =
        { status := .error, security_result := none, quality_result := none
          test_result := none
          error_message := some (PyError.qualityError "boom").text
          total_duration_seconds := 0 }) ∧
    (({} : ValidationConfig).skip_quality = false →
      validate {} (.ok ({ passed := true } : ScanResult))
          (.error (.qualityError "boom"))
          (.ok ({ passed := true } : TestResult)) 0 =
        { status := .error
          security_result :=
            if ({} : ValidationConfig).skip_security then none
            else some { passed := true }
          quality_result := none, test_result := none
          error_message := some (PyError.qualityError "boom").text
          total_duration_seconds := 0 }) ∧
    (({} : ValidationConfig).skip_tests = false →
      validate {} (.ok ({ passed := true } : ScanResult))
          (.ok ({ passed := true } : QualityResult))
          (.error (.qualityError "boom")) 0 =
        { status := .error
          security_result :=
            if ({} : ValidationConfig).skip_security then none
            else some { passed := true }
          quality_result :=
            if ({} : ValidationConfig).skip_quality then none
            else some { passed := true }
          test_result := none
          error_message := some (PyError.qualityError "boom").text
          total_duration_seconds := 0 }) :=
  validate_error_preserves_partial_results {} { passed := true }
    { passed := true } (.qualityError "boom")
    (.ok { passed := true }) (.ok { passed := true }) 0

/-- A skipped security check leaves `security_result = none` in every
branch of `validate`. -/
theorem validate_skip_security_none (config : ValidationConfig)
    (s : Except PyError ScanResult) (q : Except PyError QualityResult)
    (t : Except PyError TestResult) (d : ℚ) (hs : config.skip_security = true) :
    (validate config s q t d).security_result = none := by
  unfold validate
  simp only [hs, if_true]
  split
  · rfl
  · split
    · rfl
    · split <;> rfl

/-- A skipped quality check leaves `quality_result = none` in every
branch of `validate`. -/
theorem validate_skip_quality_none (config : ValidationConfig)
    (s : Except PyError ScanResult) (q : Except PyError QualityResult)
    (t : Except PyError TestResult) (d : ℚ) (hq : config.skip_quality = true) :
    (validate config s q t d).quality_result = none := by
  unfold validate
  simp only [hq, if_true]
  split
  · rfl
  · split
    · rfl
    · split <;> rfl

/-- A skipped test run leaves `test_result = none` in every branch of
`validate`. -/
theorem validate_skip_tests_none (config : ValidationConfig)
    (s : Except PyError ScanResult) (q : Except PyError QualityResult)
    (t : Except PyError TestResult) (d : ℚ) (ht : config.skip_tests = true) :
    (validate config s q t d).test_result = none := by
  unfold validate
  simp only [ht, if_true]
  split
  · rfl
  · split
    · rfl
    · split <;> rfl

/-- C9: the `details` mapping of a `ValidationResult` (and of its
serialized dictionary) reports `False` for every check whose sub-result
is absent, and a `PASSED` result still has `passed = true` while each
skipped check's `details` entry is `False`. -/
theorem details_false_when_subresult_absent (r : ValidationResult)
    (config : ValidationConfig) (security : Except PyError ScanResult)
    (quality : Except PyError QualityResult) (test : Except PyError TestResult)
    (d : ℚ) :
    (r.security_result = none →
      r.details.security = false ∧ r.to_dict.details.security = false) ∧
    (r.quality_result = none →
      r.details.quality = false ∧ r.to_dict.details.quality = false) ∧
    (r.test_result = none →
      r.details.tests = false ∧ r.to_dict.details.tests = false) ∧
    r.to_dict.details = r.details ∧
    (r.status = .passed → r.passed = true) ∧
    (config.skip_security = true →
      (validate config security quality test d).details.security = false) ∧
    (config.skip_quality = true →
      (validate config security quality test d).details.quality = false) ∧
    (config.skip_tests = true →
      (validate config security quality test d).details.tests = false) := by
  refine ⟨fun h => ?_, fun h => ?_, fun h => ?_, rfl, fun h => ?_,
    fun hs => ?_, fun hq => ?_, fun htk => ?_⟩
  · simp [ValidationResult.details, ValidationResult.to_dict, h]
  · simp [ValidationResult.details, ValidationResult.to_dict, h]
  · simp [ValidationResult.details, ValidationResult.to_dict, h]
  · simp [ValidationResult.passed, h]
  · simp [ValidationResult.details,
      validate_skip_security_none config security quality test d hs]
  · simp [ValidationResult.details,
      validate_skip_quality_none config security quality test d hq]
  · simp [ValidationResult.details,
      validate_skip_tests_none config security quality test d htk]

/-- Witness for `details_false_when_subresult_absent` on the result of a
fully skipped run. -/
theorem details_false_when_subresult_absent_witness :
    (({ status := .passed } : ValidationResult).security_result = none →
      ({ status := .passed } : ValidationResult).details.security = false ∧
      ({ status := .passed } : ValidationResult).to_dict.details.security = false) ∧
    (({ status := .passed } : ValidationResult).quality_result = none →
      ({ status := .passed } : ValidationResult).details.quality = false ∧
      ({ status := .passed } : ValidationResult).to_dict.details.quality = false) ∧
    (({ status := .passed } : ValidationResult).test_result = none →
      ({ status := .passed } : ValidationResult).details.tests = false ∧
      ({ status := .passed } : ValidationResult).to_dict.details.tests = false) ∧
    ({ status := .passed } : ValidationResult).to_dict.details =
      ({ status := .passed } : ValidationResult).details ∧
    (({ status := .passed } : ValidationResult).status = .passed →
      ({ status := .passed } : ValidationResult).passed = true) ∧
    (({ skip_security := true, skip_quality := true, skip_tests := true } :
        ValidationConfig).skip_security = true →
      (validate { skip_security := true, skip_quality := true, skip_tests := true }
        (.ok { passed := false }) (.ok { passed := false })
        (.ok { passed := false }) 0).details.security = false) ∧
    (({ skip_security := true, skip_quality := true, skip_tests := true } :
        ValidationConfig).skip_quality = true →
      (validate { skip_security := true, skip_quality := true, skip_tests := true }
        (.ok { passed := false }) (.ok { passed := false })
        (.ok { passed := false }) 0).details.quality = false) ∧
    (({ skip_security := true, skip_quality := true, skip_tests := true } :
        ValidationConfig).skip_tests = true →
      (validate { skip_security := true, skip_quality := true, skip_tests := true }
        (.ok { passed := false }) (.ok { passed := false })
        (.ok { passed := false }) 0).details.tests = false) :=
  details_false_when_subresult_absent { status := .passed }
    { skip_security := true, skip_quality := true, skip_tests := true }
    (.ok { passed := false }) (.ok { passed := false }) (.ok { passed := false }) 0

/-- C10: `TestResult.pass_rate` is total — `0` when `total_tests = 0`,
and the percentage `passed_tests / total_tests * 100` otherwise, so the
division is never taken with a zero denominator. -/
theorem pass_rate_total (r : TestResult) :
    (r.total_tests = 0 → r.pass_rate = 0) ∧
    (r.total_tests ≠ 0 →
      r.pass_rate = ((r.passed_tests : ℚ) / (r.total_tests : ℚ)) * 100) := by
  unfold TestResult.pass_rate
  exact ⟨fun h => if_pos h, fun h => if_neg h⟩

/-- Witness for `pass_rate_total` at an empty and a nonempty test run. -/
theorem pass_rate_total_witness :
    ({ passed := true } : TestResult).pass_rate = 0 ∧
    ({ passed := true, total_tests := 4, passed_tests := 3 } : TestResult).pass_rate
      = ((3 : ℚ) / (4 : ℚ)) * 100 :=
  ⟨(pass_rate_total { passed := true }).1 rfl,
   (pass_rate_total { passed := true, total_tests := 4, passed_tests := 3 }).2
     (by decide)⟩

/-- C6: whenever `QualityChecker.check` returns, `lint_score` is
`max(0, 100 - 5 * lint_finding_count)` — hence within `[0,100]` and
non-increasing in the lint-finding count — and `passed` holds iff the
lint-finding count is at most `max_lint_issues` and, when type hints are
required, the type check passed. -/
theorem quality_check_score_and_passed :
    (∀ (qc : QualityChecker) (code_path : String) (path_exists : Bool)
        (ruff : RuffOutcome) (mypy : MypyOutcome) (d : ℚ) (r : QualityResult),
      qc.check code_path path_exists ruff mypy d = .ok r →
        r.lint_score =
          lintScoreOf ((r.issues.filter fun i => i.category == "lint").length) ∧
        (r.passed = true ↔
          (((r.issues.filter fun i => i.category == "lint").length : Int)
              ≤ qc.max_lint_issues ∧
            (qc.require_type_hints = false ∨ r.type_check_passed = true)))) ∧
    (∀ n : Nat, 0 ≤ lintScoreOf n ∧ lintScoreOf n ≤ 100) ∧
    (∀ m n : Nat, m ≤ n → lintScoreOf n ≤ lintScoreOf m) := by
  refine ⟨?_, ?_, ?_⟩
  · intro qc code_path path_exists ruff mypy d r h
    cases path_exists with
    | false => simp [QualityChecker.check] at h
    | true =>
      cases hrt : qc.require_type_hints <;> cases ruff <;> cases mypy <;>
        simp [QualityChecker.check, run_ruff, run_mypy, Except.map, hrt] at h <;>
        subst h <;>
        simp [hrt, Bool.and_eq_true, decide_eq_true_eq]
  · intro n
    refine ⟨le_max_left 0 _, max_le (by norm_num) ?_⟩
    have : (0 : ℚ) ≤ (n : ℚ) * 5 := by positivity
    linarith
  · intro m n hmn
    unfold lintScoreOf
    gcongr

/-- Witness for the conditional part of `quality_check_score_and_passed`
at a concrete checker run with one ruff finding. -/
theorem quality_check_score_and_passed_witness :
    ({} : QualityChecker).check "agent" true
        (.completed (some [{ code := some "E501" }])) (.result [] true) 0 =
      .ok { passed := true
            issues := [{ category := "lint", code := "E501"
                         message := "Unknown issue" }]
            lint_score := lintScoreOf 1, type_check_passed := true
            check_duration_seconds := 0 } ∧
    (({} : QualityChecker).check "agent" true
        (.completed (some [{ code := some "E501" }])) (.result [] true) 0 =
          .ok { passed := true
                issues := [{ category := "lint", code := "E501"
                             message := "Unknown issue" }]
                lint_score := lintScoreOf 1, type_check_passed := true
                check_duration_seconds := 0 } →
      ({ passed := true
         issues := [{ category := "lint", code := "E501"
                      message := "Unknown issue" }]
         lint_score := lintScoreOf 1, type_check_passed := true
         check_duration_seconds := 0 } : QualityResult).lint_score =
        lintScoreOf ((([{ category := "lint", code := "E501"
                          message := "Unknown issue" }] :
            List QualityIssue).filter fun i => i.category == "lint").length)) := by
  have hrun : ({} : QualityChecker).check "agent" true
      (.completed (some [{ code := some "E501" }])) (.result [] true) 0 =
      .ok { passed := true
            issues := [{ category := "lint", code := "E501"
                         message := "Unknown issue" }]
            lint_score := lintScoreOf 1, type_check_passed := true
            check_duration_seconds := 0 } := by
    simp [QualityChecker.check, run_ruff, ruffIssues, lintScoreOf]
  exact ⟨hrun, fun h =>
    (quality_check_score_and_passed.1 {} "agent" true
      (.completed (some [{ code := some "E501" }])) (.result [] true) 0 _ h).1⟩

/-- C8 (the code against the claimed behaviour): when the final retry
attempt of `validate_agent_task` fails with an ordinary exception,
`self.retry` raises `MaxRetriesExceededError` from inside the
`except Exception` handler, which the sibling handler does not catch —
the task dies leaving the version record untouched, so no terminal
FAILED status is persisted on that path; and even the intended handler,
`_update_validation_status("failed", "Max retries exceeded")`, ignores
its message argument, so the explanatory message is never persisted. -/
theorem validate_agent_task_retries_exhausted (v : AgentVersion) (msg : String)
    (m₁ m₂ : Option String) :
    validate_agent_task (.error (.other msg)) true v =
      (.failedWith .maxRetriesExceeded, v) ∧
    update_validation_status "failed" m₁ v =
      update_validation_status "failed" m₂ v :=
  ⟨rfl, rfl⟩

/-- Is an exception the `ScanError` class? -/
def PyError.isScanError : PyError → Bool
  | .scanError _ => true
  | _ => false

/-- C7 (counterexample): a scan of an existing path, with no timeout,
on well-formed security-tool JSON whose finding has severity
`UNDEFINED` (a severity bandit really emits), raises a `ValueError` from
`list.index` — an exception that is not a `ScanError` — so `scan` does
not return a `ScanResult` on every non-timeout, existing-path input. -/
theorem scan_valueerror_counterexample :
    SecurityScanner.scan {} "agent" true
        (.completed (some [{ issue_severity := some "UNDEFINED" }])) [] 0 =
      .error (.valueError "undefined is not in list") ∧
    (PyError.valueError "undefined is not in list").isScanError = false := by
  exact ⟨by decide, by decide⟩

/-- C7 (amended): `scan` raises `ScanError` precisely on a missing path
or a tool timeout, and returns a `ScanResult` on every other input whose
collected finding severities are all among the four levels (without
that proviso a `ValueError` can escape, as the counterexample shows). -/
theorem scan_scanerror_only (sc : SecurityScanner) (code_path : String)
    (path_exists : Bool) (bandit : BanditOutcome) (files : List SrcFile)
    (d : ℚ)
    (ht : sc.severity_threshold ∈ severity_levels)
    (hsev : ∀ i ∈ banditIssues bandit ++ check_secrets files,
      i.severity ∈ severity_levels) :
    (path_exists = false →
      ∃ msg, sc.scan code_path path_exists bandit files d =
        .error (.scanError msg)) ∧
    (path_exists = true → bandit = .timeout →
      ∃ msg, sc.scan code_path path_exists bandit files d =
        .error (.scanError msg)) ∧
    (path_exists = true → bandit ≠ .timeout →
      ∃ r, sc.scan code_path path_exists bandit files d = .ok r) := by
  refine ⟨fun hp => ?_, fun hp hb => ?_, fun hp hb => ?_⟩
  · subst hp
    exact ⟨_, rfl⟩
  · subst hp hb
    exact ⟨_, rfl⟩
  · subst hp
    exact ⟨_, scan_eq_ok_of_valid sc code_path bandit files d ht hb hsev⟩

/-- Witness for `scan_scanerror_only` on all three branches: a missing
path, a timed-out tool, and a completed scan. -/
theorem scan_scanerror_only_witness :
    (∃ msg, SecurityScanner.scan {} "agent" false .notInstalled [] 0 =
      .error (.scanError msg)) ∧
    (∃ msg, SecurityScanner.scan {} "agent" true .timeout [] 0 =
      .error (.scanError msg)) ∧
    (∃ r, SecurityScanner.scan {} "agent" true .notInstalled [] 0 = .ok r) :=
  ⟨(scan_scanerror_only {} "agent" false .notInstalled [] 0 (by decide)
      (by decide)).1 rfl,
   (scan_scanerror_only {} "agent" true .timeout [] 0 (by decide)
      (by decide)).2.1 rfl rfl,
   (scan_scanerror_only {} "agent" true .notInstalled [] 0 (by decide)
      (by decide)).2.2 rfl (by decide)⟩

/-- C5 (counterexample): the secret scan only examines `*.py` files, not
every text file — a directory whose only file is `creds.txt` containing
`API_KEY = "sk-abcdefghijklmnopqrstuvwxyz"` outside a comment yields no
finding at all, and with the default `medium` threshold the scan passes. -/
theorem check_secrets_txt_counterexample :
    SecurityScanner.scan {} "agent" true (.completed none)
        [⟨"creds.txt", some "API_KEY = \"sk-abcdefghijklmnopqrstuvwxyz\""⟩] 0 =
      .ok { passed := true, issues := [], scanner_version := "1.0.0"
            scan_duration_seconds := 0 } := by decide

/-- C5 (amended): the secret scan examines exactly the `*.py` files
under the scanned path; per line it skips stripped lines starting with
`#`, emits at most one finding, every finding is `high`-severity with
the file path and line number attached, and the finding's title is the
first matching pattern's; a `.py` file with
`API_KEY = "sk-abcdefghijklmnopqrstuvwxyz"` outside a comment yields
exactly one `high` finding, and with threshold `medium` the scan fails. -/
theorem check_secrets_per_line (files : List SrcFile) (path : String)
    (n : Nat) (line : List Char) (p : SecretPattern) :
    (check_secrets files =
      (files.filter fun f => ".py".data.isSuffixOf f.path.data).bind
        checkSecretsFile) ∧
    ((pyStrip line).head? = some '#' → secretIssuesOfLine path n line = []) ∧
    ((secretIssuesOfLine path n line).length ≤ 1) ∧
    (∀ i ∈ secretIssuesOfLine path n line,
      i.severity = "high" ∧ i.file_path = some path ∧ i.line_number = some n) ∧
    ((pyStrip line).head? ≠ some '#' → firstSecretPattern line = some p →
      secretIssuesOfLine path n line =
        [{ severity := "high", title := p.title
           description := "Found pattern matching potential secret: " ++ p.pattern
           file_path := some path, line_number := some n }]) ∧
    (∃ r, SecurityScanner.scan {} "agent" true (.completed none)
        [⟨"main.py", some "API_KEY = \"sk-abcdefghijklmnopqrstuvwxyz\""⟩] 0 =
          .ok r ∧
      r.passed = false ∧ r.high_count = 1) := by
  refine ⟨rfl, fun h => ?_, ?_, ?_, fun hc hf => ?_, ?_⟩
  · unfold secretIssuesOfLine
    split
    · rfl
    · rename_i hne
      cases hl : pyStrip line with
      | nil => rw [hl] at h; simp at h
      | cons c t =>
        rw [hl] at h
        simp at h
        subst h
        exact absurd hl (hne t)
  · unfold secretIssuesOfLine
    split
    · simp
    · split <;> simp
  · unfold secretIssuesOfLine
    split
    · simp
    · split <;> simp
  · unfold secretIssuesOfLine
    split
    · rename_i heq
      rw [heq] at hc
      simp at hc
    · rw [hf]
  · exact ⟨_, rfl, by decide, by decide⟩

/-- Witness for `check_secrets_per_line`: a comment line yields nothing,
and the scenario line yields the API-key finding of the first pattern. -/
theorem check_secrets_per_line_witness :
    secretIssuesOfLine "m.py" 3 "  # password = \"hunter2222\"".data = [] ∧
    secretIssuesOfLine "main.py" 1
        "API_KEY = \"sk-abcdefghijklmnopqrstuvwxyz\"".data =
      [{ severity := "high"
         title := ({ pattern := "(?i)(api[_-]?key|apikey)\\s*[=:]\\s*[\"\\\x27][^\"\\\x27]\x7b10,\x7d[\"\\\x27]"
                     title := "Potential API key"
                     matchesAt := patApiKey } : SecretPattern).title
         description := "Found pattern matching potential secret: " ++
           ({ pattern := "(?i)(api[_-]?key|apikey)\\s*[=:]\\s*[\"\\\x27][^\"\\\x27]\x7b10,\x7d[\"\\\x27]"
              title := "Potential API key"
              matchesAt := patApiKey } : SecretPattern).pattern
         file_path := some "main.py", line_number := some 1 }] :=
  ⟨(check_secrets_per_line [] "m.py" 3 "  # password = \"hunter2222\"".data
      { pattern := "", title := "", matchesAt := fun _ => false }).2.1
      (by decide),
   (check_secrets_per_line [] "main.py" 1
      "API_KEY = \"sk-abcdefghijklmnopqrstuvwxyz\"".data
      { pattern := "(?i)(api[_-]?key|apikey)\\s*[=:]\\s*[\"\\\x27][^\"\\\x27]\x7b10,\x7d[\"\\\x27]"
        title := "Potential API key"
        matchesAt := patApiKey }).2.2.2.2.1 (by decide) rfl⟩

/-- C4 (counterexample): the summary regex is searched with `re.search`,
which takes the *first* match in the output, not a trailing summary
line — an output containing the line `2 passed, 1 failed in 0.1s` after
an earlier line `3 passed in 0.2s` parses to `passed_count = 3`,
`failed_count = 0`, not the claimed `2` and `1`. -/
theorem parse_first_summary_counterexample :
    ("2 passed, 1 failed in 0.1s".data ∈ splitOnNl
      (parse_pytest_output "3 passed in 0.2s\n2 passed, 1 failed in 0.1s" ""
        1).output.data) ∧
    (parse_pytest_output "3 passed in 0.2s\n2 passed, 1 failed in 0.1s" ""
      1).passed_tests = 3 ∧
    (parse_pytest_output "3 passed in 0.2s\n2 passed, 1 failed in 0.1s" ""
      1).failed_tests = 0 ∧
    (parse_pytest_output "3 passed in 0.2s\n2 passed, 1 failed in 0.1s" ""
      1).total_tests = 3 := by decide

/-- C4 (amended): the *first* match of the summary pattern
`N passed[, M failed][, K skipped][, J error]` in the output is
authoritative for the groups it captures, overriding the counts derived
from the `path::name STATUS` case lines (counts for groups it does not
capture keep their case-line values); for the output consisting of the
single line `2 passed, 1 failed in 0.1s` this gives `passed_count = 2`,
`failed_count = 1`, `total = 3`, `passed = false`. -/
theorem parse_first_summary_authoritative (stdout stderr : String) (rc : Int)
    (g : SummaryGroups)
    (h : summarySearch (stdout.data ++ "\n".data ++ stderr.data) = some g) :
    ((parse_pytest_output stdout stderr rc).passed_tests =
      digitsToNat g.passedDigits ∧
    (parse_pytest_output stdout stderr rc).failed_tests =
      (g.failedDigits.map digitsToNat).getD
        (((parse_pytest_output stdout stderr rc).test_cases.filter
            fun c => c.status == "failed").length) ∧
    (parse_pytest_output stdout stderr rc).skipped_tests =
      (g.skippedDigits.map digitsToNat).getD
        (((parse_pytest_output stdout stderr rc).test_cases.filter
            fun c => c.status == "skipped").length) ∧
    (parse_pytest_output stdout stderr rc).error_tests =
      (g.errorDigits.map digitsToNat).getD
        (((parse_pytest_output stdout stderr rc).test_cases.filter
            fun c => c.status == "error").length) ∧
    (parse_pytest_output stdout stderr rc).total_tests =
      (parse_pytest_output stdout stderr rc).passed_tests +
      (parse_pytest_output stdout stderr rc).failed_tests +
      (parse_pytest_output stdout stderr rc).skipped_tests +
      (parse_pytest_output stdout stderr rc).error_tests ∧
    (parse_pytest_output stdout stderr rc).passed =
      (rc == 0 && (parse_pytest_output stdout stderr rc).failed_tests == 0
        && (parse_pytest_output stdout stderr rc).error_tests == 0)) ∧
    ((parse_pytest_output "2 passed, 1 failed in 0.1s" "" 1).passed_tests = 2 ∧
      (parse_pytest_output "2 passed, 1 failed in 0.1s" "" 1).failed_tests = 1 ∧
      (parse_pytest_output "2 passed, 1 failed in 0.1s" "" 1).total_tests = 3 ∧
      (parse_pytest_output "2 passed, 1 failed in 0.1s" "" 1).passed = false) := by
  constructor
  · have h' : summarySearch (stdout.data ++ '\n' :: stderr.data) = some g := by
      simpa using h
    simp [parse_pytest_output, h']
  · decide

/-- Witness for `parse_first_summary_authoritative` at the scenario
output itself. -/
theorem parse_first_summary_authoritative_witness :
    ((parse_pytest_output "2 passed, 1 failed in 0.1s" "" 1).passed_tests =
      digitsToNat (SummaryGroups.mk "2".data (some "1".data) none none).passedDigits ∧
    (parse_pytest_output "2 passed, 1 failed in 0.1s" "" 1).failed_tests =
      ((SummaryGroups.mk "2".data (some "1".data) none none).failedDigits.map
        digitsToNat).getD
        (((parse_pytest_output "2 passed, 1 failed in 0.1s" "" 1).test_cases.filter
            fun c => c.status == "failed").length) ∧
    (parse_pytest_output "2 passed, 1 failed in 0.1s" "" 1).skipped_tests =
      ((SummaryGroups.mk "2".data (some "1".data) none none).skippedDigits.map
        digitsToNat).getD
        (((parse_pytest_output "2 passed, 1 failed in 0.1s" "" 1).test_cases.filter
            fun c => c.status == "skipped").length) ∧
    (parse_pytest_output "2 passed, 1 failed in 0.1s" "" 1).error_tests =
      ((SummaryGroups.mk "2".data (some "1".data) none none).errorDigits.map
        digitsToNat).getD
        (((parse_pytest_output "2 passed, 1 failed in 0.1s" "" 1).test_cases.filter
            fun c => c.status == "error").length) ∧
    (parse_pytest_output "2 passed, 1 failed in 0.1s" "" 1).total_tests =
      (parse_pytest_output "2 passed, 1 failed in 0.1s" "" 1).passed_tests +
      (parse_pytest_output "2 passed, 1 failed in 0.1s" "" 1).failed_tests +
      (parse_pytest_output "2 passed, 1 failed in 0.1s" "" 1).skipped_tests +
      (parse_pytest_output "2 passed, 1 failed in 0.1s" "" 1).error_tests ∧
    (parse_pytest_output "2 passed, 1 failed in 0.1s" "" 1).passed =
      ((1 : Int) == 0 &&
        (parse_pytest_output "2 passed, 1 failed in 0.1s" "" 1).failed_tests == 0
        && (parse_pytest_output "2 passed, 1 failed in 0.1s" "" 1).error_tests == 0)) ∧
    ((parse_pytest_output "2 passed, 1 failed in 0.1s" "" 1).passed_tests = 2 ∧
      (parse_pytest_output "2 passed, 1 failed in 0.1s" "" 1).failed_tests = 1 ∧
      (parse_pytest_output "2 passed, 1 failed in 0.1s" "" 1).total_tests = 3 ∧
      (parse_pytest_output "2 passed, 1 failed in 0.1s" "" 1).passed = false) :=
  parse_first_summary_authoritative "2 passed, 1 failed in 0.1s" "" 1
    (SummaryGroups.mk "2".data (some "1".data) none none) (by decide)
